import Mathlib

/-!
# Shallow embedding of the simple-attendance-tracker core (src/app/page.tsx)

The data aggregation and drill-down layer of the attendance tracker is
embedded as pure Lean functions:

* JavaScript numbers are modelled as exact rationals (`ℚ`); the source's
  `parseFloat(x.toFixed(1))` is modelled as decimal rounding to one place
  with half-up tie-breaking (`roundHalfUp1`), the behaviour ECMAScript
  `toFixed` specifies (ties pick the larger candidate).
* `string.substring(5)` is modelled by `String.drop _ 5`, which clamps just
  as the JavaScript operation does.
* The nullable `selectedBarDate : string | null` is an `Option String`;
  the `selectedStudentId` select value is kept as a `String` with `""` as
  the "no selection" sentinel, exactly as in the source.
* `Array.prototype.sort` with a string comparator is modelled by the stable
  `List.mergeSort` on the same key (`localeCompare` agrees with code-point
  order on the ASCII digit/hyphen strings involved).
-/

/-- `Student` record (interface `Student`): `{ id: number; name: string }`. -/
structure Student where
  id : Int
  name : String
deriving DecidableEq, Repr

/-- `AttendanceRawData` (interface `AttendanceRawData`):
`{ date: string; present: number[] }`. -/
structure AttendanceRawData where
  date : String
  present : List Int
deriving DecidableEq, Repr

/-- `ProcessedChartDataPoint`: one per-day aggregate fed to the chart. -/
structure ProcessedChartDataPoint where
  date : String
  originalDate : String
  attendancePercentage : ℚ
  presentStudentIds : List Int
deriving DecidableEq, Repr

/-- Decimal rounding to one place, half-up: the model of
`parseFloat(x.toFixed(1))` from line 95 of `page.tsx`. -/
def roundHalfUp1 (q : ℚ) : ℚ :=
  ((⌊q * 10 + 1 / 2⌋ : ℤ) : ℚ) / 10

/-- Line 91: `totalStudents > 0 ? (log.present.length / totalStudents) * 100 : 0`. -/
def percentageOf (totalStudents presentCount : Nat) : ℚ :=
  if 0 < totalStudents then ((presentCount : ℚ) / (totalStudents : ℚ)) * 100 else 0

/-- The body of the `rawAttendance.map` callback in the chart-data
`useEffect` (lines 90–98 of `page.tsx`). -/
def processLog (totalStudents : Nat) (log : AttendanceRawData) : ProcessedChartDataPoint :=
  { date := log.date.drop 5
    originalDate := log.date
    attendancePercentage := roundHalfUp1 (percentageOf totalStudents log.present.length)
    presentStudentIds := log.present }

/-- The `chartData` computed inside the `useEffect` (lines 89–98):
`rawAttendance.map(log => ...)` with `totalStudents = allStudents.length`. -/
def chartDataOf (allStudents : List Student) (rawAttendance : List AttendanceRawData) :
    List ProcessedChartDataPoint :=
  rawAttendance.map (processLog allStudents.length)

/-- The whole chart-data `useEffect` (lines 87–101) as a state transformer:
when either store is empty the update is skipped and the previous
`processedChartData` is kept. -/
def processChartUpdate (allStudents : List Student) (rawAttendance : List AttendanceRawData)
    (processedChartData : List ProcessedChartDataPoint) : List ProcessedChartDataPoint :=
  if 0 < allStudents.length ∧ 0 < rawAttendance.length then
    chartDataOf allStudents rawAttendance
  else
    processedChartData

/-- The callback of `log.present.map` in `presentStudentsOnSelectedDate`
(lines 123–126): name lookup with the `"ID: <id>"` fallback. -/
def resolveName (allStudents : List Student) (id : Int) : String :=
  match allStudents.find? (fun s => s.id = id) with
  | some student => student.name
  | none => "ID: " ++ toString id

/-- `presentStudentsOnSelectedDate` (lines 119–127 of `page.tsx`).  The
guard `!selectedBarDate` is true both for `null` and for the falsy empty
string, so `none` and `some ""` alike short-circuit to `[]`. -/
def presentStudentsOnSelectedDate (selectedBarDate : Option String)
    (allStudents : List Student) (rawAttendance : List AttendanceRawData) : List String :=
  match selectedBarDate with
  | none => []
  | some d =>
    if d = "" ∨ allStudents.length = 0 then []
    else
      match rawAttendance.find? (fun r => r.date = d) with
      | none => []
      | some log => log.present.map (resolveName allStudents)

/-- Maximal leading decimal-digit run of a character list, as a number;
`none` when there is no leading digit (the `NaN` outcome). -/
def parseDigits (cs : List Char) : Option Nat :=
  let ds := cs.takeWhile Char.isDigit
  if ds.isEmpty then none
  else some (ds.foldl (fun a c => a * 10 + (c.toNat - 48)) 0)

/-- `parseInt(s, 10)` (line 131): skip whitespace, optional sign, maximal
digit run; `none` models the `NaN` result. -/
def jsParseInt10 (s : String) : Option Int :=
  match s.data.dropWhile Char.isWhitespace with
  | '-' :: rest => (parseDigits rest).map (fun n => -(n : Int))
  | '+' :: rest => (parseDigits rest).map (fun n => (n : Int))
  | cs => (parseDigits cs).map (fun n => (n : Int))

/-- One row of the per-student history table: `{ date: "MM-DD", status }`. -/
structure HistoryRecord where
  date : String
  status : String
deriving DecidableEq, Repr

/-- The body of the `rawAttendance.map` callback in
`studentSpecificAttendanceData` (lines 132–135).  A `none` id (the `NaN`
from a failed parse) is never found by `includes`, hence `Absent`. -/
def historyRecordOf (studentIdNum : Option Int) (log : AttendanceRawData) : HistoryRecord :=
  { date := log.date.drop 5
    status :=
      match studentIdNum with
      | some n => if log.present.contains n then "Present" else "Absent"
      | none => "Absent" }

/-- The comparator `(a, b) => a.date.localeCompare(b.date)` (line 135) as a
Boolean "less or equal" on rows. -/
def histLe (a b : HistoryRecord) : Bool :=
  a.date ≤ b.date

/-- `studentSpecificAttendanceData` (lines 129–136 of `page.tsx`). -/
def studentSpecificAttendanceData (selectedStudentId : String)
    (rawAttendance : List AttendanceRawData) : List HistoryRecord :=
  if selectedStudentId = "" ∨ rawAttendance.length = 0 then []
  else
    let studentIdNum := jsParseInt10 selectedStudentId
    (rawAttendance.map (historyRecordOf studentIdNum)).mergeSort histLe

/-- The selection state: `selectedBarDate` (`string | null`) and
`selectedStudentId` (a `string`, `""` meaning "no selection"). -/
structure SelectionState where
  selectedBarDate : Option String
  selectedStudentId : String
deriving DecidableEq, Repr

/-- `handleBarClick` (lines 105–116): both branches only ever call
`setSelectedBarDate` with an `originalDate`; when neither branch applies the
state is untouched. -/
def handleBarClick (processedChartData : List ProcessedChartDataPoint)
    (activePayload : Option ProcessedChartDataPoint) (index : Nat)
    (s : SelectionState) : SelectionState :=
  match activePayload with
  | some payload => { s with selectedBarDate := some payload.originalDate }
  | none =>
    match processedChartData[index]? with
    | some clickedData => { s with selectedBarDate := some clickedData.originalDate }
    | none => s

/-- The student select's `onChange` handler (line 240):
`setSelectedStudentId(e.target.value)`. -/
def setSelectedStudentId (s : SelectionState) (value : String) : SelectionState :=
  { s with selectedStudentId := value }

/-! ## Test fixtures

Concrete sample data (the shapes used in the spec's testable-properties
section) for the closed witness instances below. -/

/-- A four-student roster (ids 1–4). -/
def sampleRoster : List Student :=
  [⟨1, "Ann"⟩, ⟨2, "Ben"⟩, ⟨3, "Cal"⟩, ⟨4, "Dee"⟩]

/-- Three log entries with out-of-order dates. -/
def sampleLogs : List AttendanceRawData :=
  [⟨"2025-05-03", [1]⟩, ⟨"2025-05-01", [2]⟩, ⟨"2025-05-02", [3]⟩]

/-- One log entry with three of the four students present. -/
def sampleLog : AttendanceRawData := ⟨"2025-05-01", [1, 2, 3]⟩

/-- A log entry whose `presentIds` contains a stale id (99). -/
def drillLog : AttendanceRawData := ⟨"2025-05-01", [2, 7, 99]⟩

/-- A log entry with a malformed (shorter than "YYYY-MM-DD") date. -/
def badLog : AttendanceRawData := ⟨"bad", [1]⟩

/-- A log entry whose date is the empty string — selecting it makes
`selectedBarDate` falsy. -/
def emptyDateLog : AttendanceRawData := ⟨"", [1]⟩

/-! ## Claim theorems -/

/-- C1: for every roster of size `R > 0` and every log entry with
`P = presentIds.length ≤ R`, the aggregation step produces an
`attendancePercentage` in `[0, 100]` equal to `P / R * 100` rounded to one
decimal place with round-half-up semantics. -/
theorem aggregate_percentage_bounds_round (roster : List Student) (log : AttendanceRawData)
    (hR : 0 < roster.length) (hP : log.present.length ≤ roster.length) :
    0 ≤ (processLog roster.length log).attendancePercentage ∧
      (processLog roster.length log).attendancePercentage ≤ 100 ∧
      (processLog roster.length log).attendancePercentage
        = roundHalfUp1 ((log.present.length : ℚ) / (roster.length : ℚ) * 100) := by
  have hRpos : (0 : ℚ) < (roster.length : ℚ) := by exact_mod_cast hR
  have hq0 : (0 : ℚ) ≤ (log.present.length : ℚ) / (roster.length : ℚ) * 100 := by positivity
  have hq1 : (log.present.length : ℚ) / (roster.length : ℚ) * 100 ≤ 100 := by
    have hle : (log.present.length : ℚ) / (roster.length : ℚ) ≤ 1 := by
      rw [div_le_one hRpos]
      exact_mod_cast hP
    nlinarith
  have hval : (processLog roster.length log).attendancePercentage
      = roundHalfUp1 ((log.present.length : ℚ) / (roster.length : ℚ) * 100) := by
    simp [processLog, percentageOf, hR]
  refine ⟨?_, ?_, hval⟩ <;> rw [hval] <;> unfold roundHalfUp1
  · have hfl : (0 : ℤ) ≤ ⌊(log.present.length : ℚ) / (roster.length : ℚ) * 100 * 10 + 1 / 2⌋ := by
      apply Int.floor_nonneg.mpr
      nlinarith
    have : (0 : ℚ) ≤ (⌊(log.present.length : ℚ) / (roster.length : ℚ) * 100 * 10 + 1 / 2⌋ : ℚ) := by
      exact_mod_cast hfl
    positivity
  · have hfl : ⌊(log.present.length : ℚ) / (roster.length : ℚ) * 100 * 10 + 1 / 2⌋ ≤ (1000 : ℤ) := by
      rw [Int.floor_le_iff]
      push_cast
      nlinarith
    rw [div_le_iff₀ (by norm_num : (0 : ℚ) < 10)]
    calc (⌊(log.present.length : ℚ) / (roster.length : ℚ) * 100 * 10 + 1 / 2⌋ : ℚ)
        ≤ (1000 : ℚ) := by exact_mod_cast hfl
      _ = 100 * 10 := by norm_num

/-- C4: with a non-empty roster and non-empty logs, the aggregation produces
one element per log entry and, projected to `originalDate`, equals the input
logs' `date` fields in the same order (no sorting or reordering). -/
theorem aggregate_preserves_order (roster : List Student) (logs : List AttendanceRawData)
    (prev : List ProcessedChartDataPoint) (hr : roster ≠ []) (hl : logs ≠ []) :
    (processChartUpdate roster logs prev).length = logs.length ∧
      (processChartUpdate roster logs prev).map (fun e => e.originalDate)
        = logs.map (fun log => log.date) := by
  have hr' : 0 < roster.length := List.length_pos.mpr hr
  have hl' : 0 < logs.length := List.length_pos.mpr hl
  have hupd : processChartUpdate roster logs prev = chartDataOf roster logs := by
    simp [processChartUpdate, hr', hl']
  constructor
  · rw [hupd]
    simp [chartDataOf]
  · rw [hupd]
    simp [chartDataOf, processLog]

/-- C6: with an empty roster or empty logs the aggregation step is skipped,
leaving the previously processed chart data unchanged; and the guarded
percentage computation is defined as `0` for a zero-size roster (never a
division error — the embedding is total). -/
theorem aggregation_skip_empty (roster : List Student) (logs : List AttendanceRawData)
    (prev : List ProcessedChartDataPoint) (h : roster = [] ∨ logs = []) :
    processChartUpdate roster logs prev = prev ∧ ∀ p : Nat, percentageOf 0 p = 0 := by
  constructor
  · rcases h with h | h <;> subst h <;> simp [processChartUpdate]
  · intro p
    simp [percentageOf]

/-- C7: a bar click only sets `selectedBarDate` and the student select only
sets `selectedStudentId`; neither clears the other axis, and selecting a
date and then a student leaves both set simultaneously. -/
theorem selection_axes_independent (s : SelectionState)
    (chart : List ProcessedChartDataPoint) (payload : ProcessedChartDataPoint)
    (i : Nat) (v : String) :
    (handleBarClick chart (some payload) i s).selectedBarDate = some payload.originalDate ∧
      (handleBarClick chart (some payload) i s).selectedStudentId = s.selectedStudentId ∧
      (handleBarClick chart none i s).selectedStudentId = s.selectedStudentId ∧
      (setSelectedStudentId s v).selectedBarDate = s.selectedBarDate ∧
      (setSelectedStudentId s v).selectedStudentId = v ∧
      setSelectedStudentId (handleBarClick chart (some payload) i s) v
        = { selectedBarDate := some payload.originalDate, selectedStudentId := v } := by
  refine ⟨rfl, rfl, ?_, rfl, rfl, rfl⟩
  unfold handleBarClick
  cases chart[i]? <;> rfl

/-- C8: re-selecting a date is idempotent — applying the bar-click
transition twice yields the same state as applying it once, and the
selection never toggles back to absent. -/
theorem selectDate_idempotent (s : SelectionState)
    (chart : List ProcessedChartDataPoint) (payload : ProcessedChartDataPoint) (i : Nat) :
    handleBarClick chart (some payload) i (handleBarClick chart (some payload) i s)
        = handleBarClick chart (some payload) i s ∧
      (handleBarClick chart (some payload) i s).selectedBarDate = some payload.originalDate ∧
      handleBarClick chart none i (handleBarClick chart none i s)
        = handleBarClick chart none i s := by
  refine ⟨rfl, rfl, ?_⟩
  unfold handleBarClick
  cases chart[i]? <;> rfl

/-- C3 (amended): with a *non-empty* selected date — the empty string is
falsy, so the guard treats it as no selection — a matching log entry and a
non-empty roster, the by-day drill-down returns exactly one row per id in
that entry's `presentIds`, in the same order; a row is the (first) matching
student's name when some roster record has that id, and the fallback
`"ID: <id>"` when none does. -/
theorem dayDrilldown_complete (d : String) (roster : List Student)
    (logs : List AttendanceRawData) (log : AttendanceRawData)
    (hfind : logs.find? (fun r => r.date = d) = some log) (hr : roster ≠ [])
    (hd : d ≠ "") :
    presentStudentsOnSelectedDate (some d) roster logs
        = log.present.map (resolveName roster) ∧
      (presentStudentsOnSelectedDate (some d) roster logs).length = log.present.length ∧
      (∀ i : Nat, (presentStudentsOnSelectedDate (some d) roster logs)[i]?
          = (log.present[i]?).map (resolveName roster)) ∧
      (∀ id : Int, (∃ s ∈ roster, s.id = id) →
        ∃ s ∈ roster, s.id = id ∧ resolveName roster id = s.name) ∧
      (∀ id : Int, (∀ s ∈ roster, s.id ≠ id) →
        resolveName roster id = "ID: " ++ toString id) := by
  have hlen : roster.length ≠ 0 := by simpa [List.length_eq_zero] using hr
  have hmain : presentStudentsOnSelectedDate (some d) roster logs
      = log.present.map (resolveName roster) := by
    simp [presentStudentsOnSelectedDate, hlen, hfind, hd]
  refine ⟨hmain, by rw [hmain]; simp, ?_, ?_, ?_⟩
  · intro i
    rw [hmain]
    simp
  · rintro id ⟨s, hs, hid⟩
    cases hfs : roster.find? (fun t => t.id = id) with
    | none =>
      rw [List.find?_eq_none] at hfs
      exact absurd hid (by simpa using hfs s hs)
    | some t =>
      have ht := List.find?_some hfs
      have htmem := List.mem_of_find?_eq_some hfs
      exact ⟨t, htmem, by simpa using ht, by simp [resolveName, hfs]⟩
  · intro id hnone
    have hfs : roster.find? (fun t => t.id = id) = none := by
      rw [List.find?_eq_none]
      intro x hx
      simpa using hnone x hx
    simp [resolveName, hfs]

/-- C5: the by-day drill-down returns an empty sequence (not an error)
whenever the selected date is absent, no log entry's date equals the
selected date, or the roster is empty. -/
theorem dayDrilldown_empty_cases (sel : Option String) (roster : List Student)
    (logs : List AttendanceRawData) (d : String) :
    presentStudentsOnSelectedDate none roster logs = [] ∧
      ((∀ log ∈ logs, log.date ≠ d) →
        presentStudentsOnSelectedDate (some d) roster logs = []) ∧
      (roster = [] → presentStudentsOnSelectedDate sel roster logs = []) := by
  refine ⟨rfl, ?_, ?_⟩
  · intro h
    have hf : logs.find? (fun r => r.date = d) = none := by
      rw [List.find?_eq_none]
      intro x hx
      simpa using h x hx
    simp [presentStudentsOnSelectedDate, hf]
  · intro h
    subst h
    cases sel <;> simp [presentStudentsOnSelectedDate]

/-- C10: the "MM-DD" display-date derivation via `substring(5)` is total —
on any date string it yields the (possibly empty) suffix past index 5, so
the aggregation step maps every entry and the per-student history keeps one
row per entry even on malformed dates. -/
theorem displayDate_total (roster : List Student) (logs : List AttendanceRawData) (s : String) :
    (chartDataOf roster logs).map (fun e => e.date)
        = logs.map (fun log => log.date.drop 5) ∧
      (s.drop 5).data = s.data.drop 5 ∧
      (s.length ≤ 5 → s.drop 5 = "") ∧
      (∀ sid : String, sid ≠ "" → logs ≠ [] →
        (studentSpecificAttendanceData sid logs).length = logs.length) := by
  refine ⟨?_, ?_, ?_, ?_⟩
  · simp [chartDataOf, processLog, List.map_map, Function.comp]
  · simp [String.drop_eq]
  · intro h
    have hdata : s.data.drop 5 = [] := List.drop_eq_nil_of_le h
    rw [String.drop_eq, hdata]
  · intro sid hsid hlogs
    have hlen : logs.length ≠ 0 := by simpa [List.length_eq_zero] using hlogs
    simp [studentSpecificAttendanceData, hsid, hlen]

/-- C2: for a non-empty logs sequence and a set (non-sentinel) student
selection parsing to `id`, the by-student history has exactly one record
per log entry, each record's status is `"Present"` iff `id` occurs in that
entry's `presentIds` (else `"Absent"`), and the output is sorted ascending
by lexicographic comparison of the `"MM-DD"` date strings. -/
theorem studentHistory_correct_sorted (sid : String) (id : Int)
    (logs : List AttendanceRawData) (hlogs : logs ≠ []) (hsid : sid ≠ "")
    (hparse : jsParseInt10 sid = some id) :
    (studentSpecificAttendanceData sid logs).Perm
        (logs.map (fun log =>
          { date := log.date.drop 5
            status := if id ∈ log.present then "Present" else "Absent" : HistoryRecord })) ∧
      (studentSpecificAttendanceData sid logs).length = logs.length ∧
      List.Pairwise (fun a b : HistoryRecord => a.date ≤ b.date)
        (studentSpecificAttendanceData sid logs) := by
  have hlen : logs.length ≠ 0 := by simpa [List.length_eq_zero] using hlogs
  have hdef : studentSpecificAttendanceData sid logs
      = (logs.map (historyRecordOf (some id))).mergeSort histLe := by
    simp [studentSpecificAttendanceData, hsid, hlen, hparse]
  have hmapeq : logs.map (historyRecordOf (some id))
      = logs.map (fun log =>
          { date := log.date.drop 5
            status := if id ∈ log.present then "Present" else "Absent" }) := by
    apply List.map_congr_left
    intro log _
    simp [historyRecordOf]
  have htrans : ∀ a b c : HistoryRecord,
      histLe a b = true → histLe b c = true → histLe a c = true := by
    intro a b c hab hbc
    simp only [histLe, decide_eq_true_eq] at hab hbc ⊢
    exact le_trans hab hbc
  have htotal : ∀ a b : HistoryRecord, (histLe a b || histLe b a) = true := by
    intro a b
    simp only [histLe, Bool.or_eq_true, decide_eq_true_eq]
    exact le_total a.date b.date
  refine ⟨?_, ?_, ?_⟩
  · rw [hdef, hmapeq]
    exact List.mergeSort_perm _ _
  · rw [hdef]
    simp
  · rw [hdef]
    have hp := List.sorted_mergeSort htrans htotal (logs.map (historyRecordOf (some id)))
    exact hp.imp (fun h => by simpa [histLe] using h)

/-! ## Witness instances -/

/-- Witness for C1 at the spec's end-to-end fixture: 3 of 4 present. -/
theorem aggregate_percentage_bounds_round_witness :
    0 < sampleRoster.length ∧ sampleLog.present.length ≤ sampleRoster.length ∧
      (0 ≤ (processLog sampleRoster.length sampleLog).attendancePercentage ∧
        (processLog sampleRoster.length sampleLog).attendancePercentage ≤ 100 ∧
        (processLog sampleRoster.length sampleLog).attendancePercentage
          = roundHalfUp1
              ((sampleLog.present.length : ℚ) / (sampleRoster.length : ℚ) * 100)) :=
  ⟨by decide, by decide,
    aggregate_percentage_bounds_round sampleRoster sampleLog (by decide) (by decide)⟩

/-- Witness for C2: student 3 over the out-of-order three-day logs. -/
theorem studentHistory_correct_sorted_witness :
    sampleLogs ≠ [] ∧ ("3" : String) ≠ "" ∧ jsParseInt10 "3" = some 3 ∧
      ((studentSpecificAttendanceData "3" sampleLogs).Perm
          (sampleLogs.map (fun log =>
            { date := log.date.drop 5
              status := if (3 : Int) ∈ log.present then "Present" else "Absent"
              : HistoryRecord })) ∧
        (studentSpecificAttendanceData "3" sampleLogs).length = sampleLogs.length ∧
        List.Pairwise (fun a b : HistoryRecord => a.date ≤ b.date)
          (studentSpecificAttendanceData "3" sampleLogs)) :=
  ⟨by decide, by decide, by decide,
    studentHistory_correct_sorted "3" 3 sampleLogs (by decide) (by decide) (by decide)⟩

/-- Witness for C3 at the spec's fixture `presentIds = [2, 7, 99]` with
student 99 missing from the roster. -/
theorem dayDrilldown_complete_witness :
    presentStudentsOnSelectedDate (some "2025-05-01") sampleRoster [drillLog]
        = drillLog.present.map (resolveName sampleRoster) ∧
      (presentStudentsOnSelectedDate (some "2025-05-01") sampleRoster [drillLog]).length
        = drillLog.present.length ∧
      (presentStudentsOnSelectedDate (some "2025-05-01") sampleRoster [drillLog])[2]?
        = (drillLog.present[2]?).map (resolveName sampleRoster) ∧
      resolveName sampleRoster 99 = "ID: " ++ toString (99 : Int) :=
  ⟨(dayDrilldown_complete "2025-05-01" sampleRoster [drillLog] drillLog
      (by decide) (by decide) (by decide)).1,
    (dayDrilldown_complete "2025-05-01" sampleRoster [drillLog] drillLog
      (by decide) (by decide) (by decide)).2.1,
    (dayDrilldown_complete "2025-05-01" sampleRoster [drillLog] drillLog
      (by decide) (by decide) (by decide)).2.2.1 2,
    (dayDrilldown_complete "2025-05-01" sampleRoster [drillLog] drillLog
      (by decide) (by decide) (by decide)).2.2.2.2 99 (by decide)⟩

/-- Witness for C4: non-empty roster and logs, empty previous chart data. -/
theorem aggregate_preserves_order_witness :
    (processChartUpdate sampleRoster sampleLogs []).length = sampleLogs.length ∧
      (processChartUpdate sampleRoster sampleLogs []).map (fun e => e.originalDate)
        = sampleLogs.map (fun log => log.date) :=
  aggregate_preserves_order sampleRoster sampleLogs [] (by decide) (by decide)

/-- Witness for C5: absent selection, unmatched date, and empty roster all
give the empty sequence. -/
theorem dayDrilldown_empty_cases_witness :
    presentStudentsOnSelectedDate none sampleRoster sampleLogs = [] ∧
      presentStudentsOnSelectedDate (some "2025-06-01") sampleRoster sampleLogs = [] ∧
      presentStudentsOnSelectedDate (some "2025-05-01") [] sampleLogs = [] :=
  ⟨(dayDrilldown_empty_cases (some "2025-06-01") sampleRoster sampleLogs "2025-06-01").1,
    (dayDrilldown_empty_cases (some "2025-06-01") sampleRoster sampleLogs
      "2025-06-01").2.1 (by decide),
    (dayDrilldown_empty_cases (some "2025-05-01") [] sampleLogs "2025-05-01").2.2 rfl⟩

/-- Witness for C6: empty roster skips aggregation and keeps the previous
chart data, and the guarded percentage at roster size 0 is 0. -/
theorem aggregation_skip_empty_witness :
    processChartUpdate [] sampleLogs (chartDataOf sampleRoster sampleLogs)
        = chartDataOf sampleRoster sampleLogs ∧
      percentageOf 0 5 = 0 :=
  ⟨(aggregation_skip_empty [] sampleLogs
      (chartDataOf sampleRoster sampleLogs) (Or.inl rfl)).1,
    (aggregation_skip_empty [] sampleLogs [] (Or.inl rfl)).2 5⟩

/-- Witness for C10 at a malformed three-character date. -/
theorem displayDate_total_witness :
    (chartDataOf sampleRoster [badLog]).map (fun e => e.date)
        = [badLog].map (fun log => log.date.drop 5) ∧
      ("bad".drop 5).data = "bad".data.drop 5 ∧
      "bad".drop 5 = "" ∧
      (studentSpecificAttendanceData "3" [badLog]).length
        = ([badLog] : List AttendanceRawData).length :=
  ⟨(displayDate_total sampleRoster [badLog] "bad").1,
    (displayDate_total sampleRoster [badLog] "bad").2.1,
    (displayDate_total sampleRoster [badLog] "bad").2.2.1 (by decide),
    (displayDate_total sampleRoster [badLog] "bad").2.2.2 "3" (by decide) (by decide)⟩

/-! ## Counterexamples to the unamended claims -/

/-- Counterexample to C3 as originally stated: the empty string is a
selected date with a matching log entry (`emptyDateLog.date = ""`) and the
roster is non-empty, yet the drill-down returns `[]` — the falsy
`!selectedBarDate` guard fires — not the mapped rows. -/
theorem dayDrilldown_complete_cex :
    ([emptyDateLog] : List AttendanceRawData).find? (fun r => r.date = "")
        = some emptyDateLog ∧
      sampleRoster ≠ [] ∧
      presentStudentsOnSelectedDate (some "") sampleRoster [emptyDateLog]
        ≠ emptyDateLog.present.map (resolveName sampleRoster) :=
  ⟨by decide, by decide, by decide⟩

